import Mathlib

/-!
Verification of the feyod-chatbot-web turn-processing workflow
(`src/agent/WorkflowManager.py`, `src/agent/state.py`, `src/app.py`).

The Python code is shallowly embedded: the conversation state becomes an
explicit `AgentState` structure, each LangGraph node becomes a Lean function
from state to state, the external collaborators (schema provider, entity
resolver, SQL generator/checker/executor/fixer, the answer-formatting LLM and
the `_prepare_llm_context` helper, all imported from the `common` package that
is outside this repository) become oracle fields of an `Env` structure, and
the LangGraph wiring in `create_workflow` becomes a `step` function on
`Stage × AgentState` iterated by `run`.
-/

set_option maxRecDepth 4000

namespace Feyod

/-- Role of a chat message: `human` models `HumanMessage`, `ai` models `AIMessage`. -/
inductive Role where
  | human
  | ai
deriving DecidableEq

/-- Chat message as used by the workflow: langchain messages carry an optional
`name` attribute (the routing tag) and a `content` string. -/
structure Message where
  role : Role
  name : Option String
  content : String
deriving DecidableEq

/-- Shorthand for `AIMessage(content=c, name=n)`. -/
def aiMsg (n : String) (c : String) : Message := Message.mk Role.ai (some n) c

/-- Shorthand for an `AIMessage` without a `name` (the final answer messages). -/
def aiPlain (c : String) : Message := Message.mk Role.ai none c

/-- Shorthand for `HumanMessage(content=c)`. -/
def humanMsg (c : String) : Message := Message.mk Role.human none c

/-- The conversation state of `agent/state.py` (`AgentState` TypedDict) plus the
keys actually threaded by the nodes: `messages` (append-only, via the
`add_messages` reducer), the cached `schema` and `schema_timestamp`, the
`resolved_entities` mapping (a Python dict, modelled as an insertion-ordered
association list) and the `fix_attempts` counter (absent key reads as 0, so it
is a plain `Nat`). -/
structure AgentState where
  messages : List Message
  schema : Option String
  schemaTimestamp : Option String
  resolvedEntities : List (String × String)
  fixAttempts : Nat
deriving DecidableEq

/-- Append one message to the state, leaving every other field unchanged
(the `add_messages` reducer behaviour for a fresh message). -/
def pushMsg (s : AgentState) (m : Message) : AgentState :=
  AgentState.mk (s.messages ++ [m]) s.schema s.schemaTimestamp s.resolvedEntities s.fixAttempts

/-- Modelled from the spec: `find_last_message_by_name` is imported from
`agent.State` but absent from the sources; per spec §3 later identically
tagged messages shadow earlier ones, so lookup returns the most recent
message carrying the tag. -/
def find_last_message_by_name (messages : List Message) (n : String) : Option Message :=
  messages.reverse.find? (fun m => decide (m.name = some n))

/-- Modelled from the spec: `find_last_human_message` is imported from
`agent.State` but absent from the sources; it returns the most recent
user-authored message (spec §3/§4.3, the latest user utterance). -/
def find_last_human_message (messages : List Message) : Option Message :=
  messages.reverse.find? (fun m => decide (m.role = Role.human))

/-! ## String machinery for `canonicalize_query`

`canonicalize_query` uses `' '.join(s.split())` and
`re.sub(r'\b' + re.escape(mention) + r'\b', canonical, s, flags=re.IGNORECASE)`.
Both are embedded directly: `pySplit` is Python's `str.split()` (split on
whitespace runs, dropping empty pieces), and `scanSubF` is `re.sub` for a
literal pattern wrapped in word boundaries, scanning left to right and
replacing non-overlapping case-insensitive occurrences. -/

/-- Python `str.split()`: maximal runs of non-whitespace characters. -/
def pySplit : List Char → List (List Char)
  | [] => []
  | c :: rest =>
    if c.isWhitespace then pySplit rest
    else
      match rest with
      | [] => [[c]]
      | d :: _ =>
        if d.isWhitespace then [c] :: pySplit rest
        else
          match pySplit rest with
          | [] => [[c]]
          | t :: ts => (c :: t) :: ts

/-- Python `' '.join(tokens)`. -/
def joinSp : List (List Char) → List Char
  | [] => []
  | [t] => t
  | t :: ts => t ++ ' ' :: joinSp ts

/-- Python `' '.join(s.split())`: collapse whitespace runs to single spaces. -/
def normWs (s : String) : String := String.mk (joinSp (pySplit s.data))

/-- Regex word character (`\w`): alphanumeric or underscore (ASCII fragment of
Python's Unicode `\w`, which coincides on the inputs of this development). -/
def isWordChar (c : Char) : Bool := c.isAlphanum || c == '_'

/-- Word-character test with the virtual non-word character at the string edges. -/
def isWordOpt : Option Char → Bool
  | none => false
  | some c => isWordChar c

/-- Case-insensitive literal prefix match; on success returns the rest of the text. -/
def stripPrefixCI : List Char → List Char → Option (List Char)
  | [], t => some t
  | _ :: _, [] => none
  | p :: ps, c :: cs => if p.toLower == c.toLower then stripPrefixCI ps cs else none

/-- One attempted match of `\b mention \b` (case-insensitive) at the current
position: `prev` is the preceding text character (for the left word boundary).
On success returns the remaining text after the match and the last matched
text character (for subsequent boundary checks). -/
def trySub (mention : List Char) (prev : Option Char) (txt : List Char) :
    Option (List Char × Option Char) :=
  match mention, txt with
  | _ :: _, t0 :: _ =>
    match stripPrefixCI mention txt with
    | none => none
    | some rest =>
      let lastM := (txt.take mention.length).getLast?
      if (isWordOpt prev != isWordChar t0) && (isWordOpt lastM != isWordOpt rest.head?) then
        some (rest, lastM)
      else none
  | _, _ => none

/-- Left-to-right scan of `re.sub` for the boundary-wrapped literal pattern:
replace each non-overlapping case-insensitive occurrence, continuing after the
matched text. `fuel` bounds the recursion; it is always instantiated with the
text length, which suffices because every step consumes at least one character. -/
def scanSubF (mention canonical : List Char) : Nat → Option Char → List Char → List Char
  | 0, _, txt => txt
  | _ + 1, _, [] => []
  | fuel + 1, prev, c :: rest =>
    match trySub mention prev (c :: rest) with
    | some pr => canonical ++ scanSubF mention canonical fuel pr.2 pr.1
    | none => c :: scanSubF mention canonical fuel (some c) rest

/-- Python `re.sub(r'\b' + re.escape(mention) + r'\b', canonical, txt, flags=re.IGNORECASE)`
for a non-empty mention; the degenerate empty-mention pattern `\b\b` is out of
the modelled scope and is treated as no substitution. -/
def reSubWordCI (mention canonical txt : String) : String :=
  if mention.data.isEmpty then txt
  else String.mk (scanSubF mention.data canonical.data txt.data.length none txt.data)

/-- Models `WorkflowManager.canonicalize_query`: normalize whitespace in the query,
then for every `(mention, canonical)` pair (in dict insertion order) replace
whole-word case-insensitive occurrences of the cleaned mention by the
canonical name. -/
def canonicalize_query (user_query : String) (resolved_entities : List (String × String)) :
    String :=
  resolved_entities.foldl
    (fun result p => reSubWordCI (normWs p.1) p.2 result)
    (normWs user_query)

/-! ## Environment of external collaborators

Everything the workflow calls outside this repository (`common.database`,
`common.query_processor`, `common.utils.*`, `common.llm_factory`,
`common.config` and the stdlib `json` codec for row payloads) is an oracle
field. A raising Python call is an `Except.error` carrying `str(e)`. -/

/-- External collaborators of the workflow, one field per imported callable. -/
structure Env where
  /-- Models `get_schema_description()`; `Except.error` models a raised exception. -/
  getSchemaDescription : Except String String
  /-- Models `datetime.utcnow().isoformat()` at the moment the schema is fetched. -/
  now : String
  /-- Models `find_ambiguous_entities(text)`. -/
  findAmbiguousEntities : String → List String
  /-- Models `resolve_entities(text)`: new mention-to-canonical pairs in insertion order. -/
  resolveEntities : String → List (String × String)
  /-- Models `generate_sql_from_nl(canonical_query, schema, messages)`. -/
  generateSqlFromNl : String → String → List Message → Except String String
  /-- Models `check_sql_syntax(sql)`: validity flag and optional diagnostic. -/
  checkSql : String → Except String (Bool × Option String)
  /-- Models `execute_query(sql)`: row payload (modelled as integer rows), or a raise. -/
  executeQuery : String → Except String (List Int)
  /-- Models `attempt_fix_sql(invalid_sql, error_message, schema, original_nl_query)`. -/
  attemptFixSql : String → String → String → String → Except String String
  /-- Models `_prepare_llm_context(messages)`. -/
  prepareLlmContext : List Message → List Message
  /-- Models `get_llm()` composed with `.ainvoke`: prompt to generated text, when available. -/
  llm : Option (String → String)
  /-- Models `config.MAX_FIX_ATTEMPTS`. -/
  maxFixAttempts : Nat

/-- Substring test starting at the head of the text (case-sensitive). -/
def startsWithL : List Char → List Char → Bool
  | [], _ => true
  | _ :: _, [] => false
  | p :: ps, c :: cs => p == c && startsWithL ps cs

/-- Substring occurrence test on character lists. -/
def containsSubL (needle : List Char) : List Char → Bool
  | [] => needle.isEmpty
  | c :: rest => startsWithL needle (c :: rest) || containsSubL needle rest

/-- Python `needle in hay` for strings. -/
def strContains (hay needle : String) : Bool := containsSubL needle.data hay.data

/-- Python `json.dumps(rows)` for the modelled row payloads. -/
def jsonDumpsRows (rows : List Int) : String :=
  "[" ++ String.intercalate ", " (rows.map toString) ++ "]"

/-- Python `json.loads` restricted to the row payload shape produced by
`jsonDumpsRows`; `none` models a raised decode error. -/
def jsonLoadsRows (s : String) : Option (List Int) :=
  if s = "[]" then some []
  else if s.startsWith "[" && s.endsWith "]" then
    let vals := (((s.drop 1).dropRight 1).splitOn ", ").map String.toInt?
    if vals.all Option.isSome then some (vals.filterMap id) else none
  else none

/-- Python dict assignment `d[k] = v`: overwrite in place, or append a new key. -/
def dictInsert (d : List (String × String)) (k v : String) : List (String × String) :=
  if d.any (fun p => p.1 == k) then d.map (fun p => if p.1 == k then (k, v) else p)
  else d ++ [(k, v)]

/-- Python `dict.update`: merge with overwrite on key collision. -/
def dictUpdate (d upd : List (String × String)) : List (String × String) :=
  upd.foldl (fun acc p => dictInsert acc p.1 p.2) d

/-! ## Prompt constants (`WorkflowManager.py` module level) -/

/-- Models `FORMAT_ANSWER_BASE_PROMPT`. -/
def FORMAT_ANSWER_BASE_PROMPT : String :=
  "\nJij bent Fred, een hartstochtelijke fan van de voetbalclub Feyenoord uit Rotterdam-Zuid.\nJouw doel is om vragen over Feyenoord te beantwoorden.\nNeem de vraag en de resultaten uit de database om een kort en bondig antwoord op de vraag te formuleren.\nHoud rekening met de volgende richtlijnen:\n- Ga nooit antwoorden verzinnen op de vraag van de gebruiker. Gebruik uitsluitend de informatie die jou gegeven hebt.\n- Geef altijd een antwoord in de eerste persoon, alsof jij Fred bent.\n- Als de query geen resultaten opleverde, wees daar dan eerlijk over en zeg dan dat je het antwoord niet weet op de vraag.\n- Refereer nooit naar technische details zoals SQL-query\x27s of database-informatie.\n"

/-- Models `FORMAT_ERROR_PROMPT`. -/
def FORMAT_ERROR_PROMPT : String :=
  FORMAT_ANSWER_BASE_PROMPT ++
  "\n- Als een foutmelding is opgetreden, laat dan de technische details achterwege.\n- Als je geen antwoord kunt geven, gebruik dan de informatie die jou gegeven is om verduidelijking te vragen. Gebruik hiervoor het database-schema.\n- Als je geen verduidelijke vragen kunt stellen, geef dan een lijst (in Markdown-formaat) met suggesties van maximaal 3 vragen die je wel kunt beantwoorden. Gebruik hiervoor het database-schema.\n"

/-- Rendering of the results-branch `ChatPromptTemplate` after `.format`
(system prompt followed by the human turn, langchain buffer-string layout). -/
def answerPrompt (question results : String) : String :=
  "System: " ++ FORMAT_ANSWER_BASE_PROMPT ++ "\nHuman: Vraag: " ++ question ++
    "\n\nResultaten:\n" ++ results

/-- Rendering of the error-branch `ChatPromptTemplate` after `.format`. -/
def errorPrompt (question error schema : String) : String :=
  "System: " ++ FORMAT_ERROR_PROMPT ++ "\nHuman: Vraag: " ++ question ++
    "\n\nFoutmelding:\n" ++ error ++ "\n\nDatabase schema:\n" ++ schema

/-- Python string interpolation of `state.get("schema")` in the error prompt:
a missing schema renders as `"None"`. -/
def renderOptSchema : Option String → String
  | none => "None"
  | some sch => sch

/-! ## Stage handlers (`WorkflowManager` nodes)

Each node returns a partial state update in Python; the embedding applies the
update (message appended via `add_messages`, other keys overwritten) and
returns the full successor state. -/

/-- Fetch branch of `get_schema_node` (cache miss): call the schema provider;
an empty or `"Error"`-containing result raises `ValueError` inside the `try`,
and any exception is converted to an error-tagged message without touching the
`schema`/`schema_timestamp` keys. -/
def get_schema_fetch (env : Env) (s : AgentState) : AgentState :=
  match env.getSchemaDescription with
  | Except.error e =>
    pushMsg s (aiMsg "error" ("Fatal error getting schema: " ++ e))
  | Except.ok sch =>
    if sch = "" ∨ strContains sch "Error" = true then
      pushMsg s (aiMsg "error" ("Fatal error getting schema: Failed to retrieve schema: " ++ sch))
    else
      AgentState.mk (s.messages ++ [aiMsg "schema" "Schema loaded."])
        (some sch) (some env.now) s.resolvedEntities s.fixAttempts

/-- Models `get_schema_node`: cache hit (`schema` truthy) returns the cached schema and
timestamp unchanged with a schema-tagged marker message; otherwise fetch. -/
def get_schema_node (env : Env) (s : AgentState) : AgentState :=
  match s.schema with
  | none => get_schema_fetch env s
  | some sch =>
    if sch = "" then get_schema_fetch env s
    else pushMsg s (aiMsg "schema" "Schema loaded.")

/-- Models `clarify_node`: find the latest user utterance, detect ambiguous entities,
merge newly resolved entities, and append a clarify- or clarified-tagged
message. -/
def clarify_node (env : Env) (s : AgentState) : AgentState :=
  match find_last_human_message s.messages with
  | none => pushMsg s (aiMsg "error" "Kon de gebruikersvraag niet vinden voor clarificatie.")
  | some nl =>
    let amb := env.findAmbiguousEntities nl.content
    let upd := dictUpdate s.resolvedEntities (env.resolveEntities nl.content)
    if amb.isEmpty then
      AgentState.mk (s.messages ++ [aiMsg "clarified" "OK"])
        s.schema s.schemaTimestamp upd s.fixAttempts
    else
      AgentState.mk
        (s.messages ++ [aiMsg "clarify"
          ("Ik heb meerdere mogelijkheden gevonden voor: " ++ String.intercalate ", " amb ++
            ". Kun je specifieker zijn over welke speler, club of competitie je bedoelt?")])
        s.schema s.schemaTimestamp upd s.fixAttempts

/-- Models `generate_query_node`: require a schema and a latest user utterance (in the
prepared LLM context), canonicalize, and call the SQL generator; failures
become error-tagged messages. -/
def generate_query_node (env : Env) (s : AgentState) : AgentState :=
  match s.schema with
  | none => pushMsg s (aiMsg "error" "Schema not available for query generation.")
  | some sch =>
    if sch = "" then pushMsg s (aiMsg "error" "Schema not available for query generation.")
    else
      match find_last_human_message (env.prepareLlmContext s.messages) with
      | none => pushMsg s (aiMsg "error" "Could not extract user query from messages.")
      | some q =>
        match env.generateSqlFromNl (canonicalize_query q.content s.resolvedEntities)
            sch s.messages with
        | Except.ok sql => pushMsg s (aiMsg "sql_query" sql)
        | Except.error e => pushMsg s (aiMsg "error" ("Error generating SQL: " ++ e))

/-- Python `error or "Invalid SQL syntax"` on the checker diagnostic. -/
def diagOrDefault : Option String → String
  | none => "Invalid SQL syntax"
  | some d => if d = "" then "Invalid SQL syntax" else d

/-- Models `check_query_node`: check the latest sql_query-tagged message; a valid query
appends a check_result-tagged marker, everything else an error-tagged message. -/
def check_query_node (env : Env) (s : AgentState) : AgentState :=
  match find_last_message_by_name s.messages "sql_query" with
  | none => pushMsg s (aiMsg "error" "No SQL query found in history to check.")
  | some m =>
    match env.checkSql m.content with
    | Except.ok (true, _) => pushMsg s (aiMsg "check_result" "Syntax check OK")
    | Except.ok (false, d) => pushMsg s (aiMsg "error" (diagOrDefault d))
    | Except.error e => pushMsg s (aiMsg "error" ("Error checking SQL: " ++ e))

/-- Models `execute_query_node`: execute the latest sql_query-tagged message; success
appends the JSON-serialized rows as a results-tagged message, and every failure
(missing query or raising executor) appends an error-tagged message. -/
def execute_query_node (env : Env) (s : AgentState) : AgentState :=
  match find_last_message_by_name s.messages "sql_query" with
  | none => pushMsg s (aiMsg "error" "No SQL query found in history to execute.")
  | some m =>
    match env.executeQuery m.content with
    | Except.ok results => pushMsg s (aiMsg "results" (jsonDumpsRows results))
    | Except.error e => pushMsg s (aiMsg "error" ("Error executing query: " ++ e))

/-- Missing-context exit of `fix_query_node`: error-tagged message plus the
counter increment. -/
def fixMissingUpdate (s : AgentState) : AgentState :=
  AgentState.mk (s.messages ++ [aiMsg "error" "Cannot fix query: Missing context."])
    s.schema s.schemaTimestamp s.resolvedEntities (s.fixAttempts + 1)

/-- Models `fix_query_node`: require the latest sql_query, latest error, schema and
latest user utterance (the message lookups in the prepared LLM context); call
the SQL fixer; every exit path increments `fix_attempts` by one. -/
def fix_query_node (env : Env) (s : AgentState) : AgentState :=
  match s.schema, find_last_message_by_name (env.prepareLlmContext s.messages) "sql_query",
      find_last_message_by_name (env.prepareLlmContext s.messages) "error",
      find_last_human_message (env.prepareLlmContext s.messages) with
  | some sch, some sqlm, some em, some nm =>
    if sch = "" then fixMissingUpdate s
    else
      match env.attemptFixSql sqlm.content em.content sch nm.content with
      | Except.ok fixedSql =>
        AgentState.mk (s.messages ++ [aiMsg "sql_query" fixedSql])
          s.schema s.schemaTimestamp s.resolvedEntities (s.fixAttempts + 1)
      | Except.error e =>
        AgentState.mk (s.messages ++ [aiMsg "error" ("Failed to attempt fix: " ++ e)])
          s.schema s.schemaTimestamp s.resolvedEntities (s.fixAttempts + 1)
  | _, _, _, _ => fixMissingUpdate s

/-- Models `format_answer_node`: a missing LLM or question short-circuits to a fixed
apology; a results-tagged message anywhere in history selects the results
branch (JSON decode failure keeps the default apology); otherwise the latest
error-tagged message selects the persona-styled error-disclosure branch. -/
def format_answer_node (env : Env) (s : AgentState) : AgentState :=
  match env.llm with
  | none => pushMsg s (aiPlain "Error: LLM not available to format the final answer.")
  | some f =>
    match find_last_human_message s.messages with
    | none => pushMsg s (aiPlain "Error: Could not find original question to formulate answer.")
    | some q =>
      match find_last_message_by_name s.messages "results" with
      | some r =>
        match jsonLoadsRows r.content with
        | none => pushMsg s (aiPlain "Sorry, er is een onverwachte fout opgetreden.")
        | some rows =>
          if rows.isEmpty then
            pushMsg s (aiPlain (f (answerPrompt q.content "Geen resultaten gevonden.")))
          else
            pushMsg s (aiPlain (f (answerPrompt q.content
              (String.intercalate "\n" (rows.map toString)))))
      | none =>
        match find_last_message_by_name s.messages "error" with
        | some e =>
          pushMsg s (aiPlain (f (errorPrompt q.content e.content (renderOptSchema s.schema))))
        | none => pushMsg s (aiPlain "Sorry, er is een onverwachte fout opgetreden.")

/-! ## Transition routers and the graph engine (`create_workflow`) -/

/-- Models `should_fix_or_execute`: inspect the last message and the repair counter. -/
def should_fix_or_execute (env : Env) (s : AgentState) : String :=
  match s.messages.getLast? with
  | none => "format_answer"
  | some m =>
    if m.name = some "error" ∧ s.fixAttempts < env.maxFixAttempts then "fix_query"
    else if m.name = some "check_result" then "execute_query"
    else "format_answer"

/-- Models `after_execution`: inspect the last message only. -/
def after_execution (s : AgentState) : String :=
  match s.messages.getLast? with
  | none => "format_answer"
  | some m =>
    if m.name = some "error" then "fix_query"
    else if m.name = some "results" then "format_answer"
    else "format_answer"

/-- Clarify-loop router (the lambda in `create_workflow`): a clarified-tagged
message anywhere in the history routes to query generation. -/
def clarify_router (s : AgentState) : String :=
  if (find_last_message_by_name s.messages "clarified").isSome then "generate_query"
  else "clarify"

/-- Workflow stages of `create_workflow`, plus the terminal `done` (END). -/
inductive Stage where
  | get_schema
  | clarify
  | generate_query
  | check_query
  | execute_query
  | fix_query
  | format_answer
  | done
deriving DecidableEq

/-- Conditional-edge mapping after `clarify`. -/
def stageTargetFromClarify (r : String) : Stage :=
  if r = "generate_query" then Stage.generate_query else Stage.clarify

/-- Conditional-edge mapping after `check_query`. -/
def stageTargetFromCheck (r : String) : Stage :=
  if r = "fix_query" then Stage.fix_query
  else if r = "execute_query" then Stage.execute_query
  else Stage.format_answer

/-- Conditional-edge mapping after `execute_query`. -/
def stageTargetFromExec (r : String) : Stage :=
  if r = "fix_query" then Stage.fix_query else Stage.format_answer

/-- One engine step: run the current stage's node and follow the (conditional)
edge wired in `create_workflow`, evaluating routers on the node's output state. -/
def step (env : Env) : Stage × AgentState → Stage × AgentState
  | (Stage.get_schema, s) => (Stage.clarify, get_schema_node env s)
  | (Stage.clarify, s) =>
    let s2 := clarify_node env s
    (stageTargetFromClarify (clarify_router s2), s2)
  | (Stage.generate_query, s) => (Stage.check_query, generate_query_node env s)
  | (Stage.check_query, s) =>
    let s2 := check_query_node env s
    (stageTargetFromCheck (should_fix_or_execute env s2), s2)
  | (Stage.execute_query, s) =>
    let s2 := execute_query_node env s
    (stageTargetFromExec (after_execution s2), s2)
  | (Stage.fix_query, s) => (Stage.check_query, fix_query_node env s)
  | (Stage.format_answer, s) => (Stage.done, format_answer_node env s)
  | (Stage.done, s) => (Stage.done, s)

/-- Iterate the engine a given number of steps from a configuration. -/
def run (env : Env) : Nat → Stage × AgentState → Stage × AgentState
  | 0, p => p
  | n + 1, p => run env n (step env p)

/-- Schema-load failure (spec §4.2): the provider raises, or returns an empty
or error-flagged description. -/
def schemaLoadFails (env : Env) : Prop :=
  match env.getSchemaDescription with
  | Except.error _ => True
  | Except.ok sch => sch = "" ∨ strContains sch "Error" = true

/-! ## Concrete scenarios -/

/-- Benign environment used by witnesses: every collaborator succeeds. -/
def envW : Env :=
  Env.mk (Except.ok "SCHEMA") "2025-01-01T00:00:00" (fun _ => []) (fun _ => [])
    (fun _ _ _ => Except.ok "SELECT 1") (fun _ => Except.ok (true, none))
    (fun _ => Except.ok [7]) (fun sql _ _ _ => Except.ok sql) id (some id) 3

/-- Variant of `envW` with different provider, executor and fixer oracles, used
to witness that certain stages never consult them. -/
def envW2 : Env :=
  Env.mk (Except.error "provider down") "1999-12-31T23:59:59" (fun _ => ["X"])
    (fun _ => [("a", "b")]) (fun _ _ _ => Except.error "gen down")
    (fun _ => Except.error "checker down") (fun _ => Except.error "executor down")
    (fun _ _ _ _ => Except.error "fixer down") id none 0

/-- Environment for the repair-bound scenario: the bound is 1, syntax checks
always pass, execution always raises, and the fixer always returns a new query. -/
def envC1 : Env :=
  Env.mk (Except.ok "SCHEMA") "2025-01-01T00:00:00" (fun _ => []) (fun _ => [])
    (fun _ _ _ => Except.ok "S0") (fun _ => Except.ok (true, none))
    (fun _ => Except.error "boom") (fun sql _ _ _ => Except.ok (sql ++ "x")) id (some id) 1

/-- Initial configuration for the repair-bound scenario: one user utterance and
a cached schema. -/
def initC1 : AgentState :=
  AgentState.mk [humanMsg "vraag"] (some "SCH") (some "t0") [] 0

/-- Environment for the schema-failure scenario: the provider raises and the
bound is 1. -/
def envC3 : Env :=
  Env.mk (Except.error "db down") "2025-01-01T00:00:00" (fun _ => []) (fun _ => [])
    (fun _ _ _ => Except.ok "S0") (fun _ => Except.ok (true, none))
    (fun _ => Except.ok []) (fun sql _ _ _ => Except.ok sql) id (some id) 1

/-- Initial configuration for the schema-failure scenario: one user utterance
and no cached schema. -/
def initC3 : AgentState :=
  AgentState.mk [humanMsg "vraag"] none none [] 0

/-- A clarify-tagged message, as appended by `clarify_node` on ambiguity. -/
def clarifyMsgW : Message :=
  aiMsg "clarify"
    "Ik heb meerdere mogelijkheden gevonden voor: X. Kun je specifieker zijn over welke speler, club of competitie je bedoelt?"

/-- A clarified-tagged message, as appended by `clarify_node` on success. -/
def clarifiedMsgW : Message := aiMsg "clarified" "OK"

/-- History containing a clarified-tagged message before a clarify-tagged one. -/
def stateClarA : AgentState := AgentState.mk [clarifiedMsgW, clarifyMsgW] none none [] 0

/-- History containing only the clarify-tagged message. -/
def stateClarB : AgentState := AgentState.mk [clarifyMsgW] none none [] 0

/-- State with an error-tagged last message and no repair attempts. -/
def stateErrLow : AgentState := AgentState.mk [aiMsg "error" "E"] none none [] 0

/-- Same history as `stateErrLow` with the repair counter at 5. -/
def stateErrHigh : AgentState := AgentState.mk [aiMsg "error" "E"] none none [] 5

/-- History for the stale-results scenario: a question, then results, then a
newer error. -/
def stateC5 : AgentState :=
  AgentState.mk [humanMsg "Vraag?", aiMsg "results" "[]", aiMsg "error" "BOOM"]
    (some "SCH") (some "t0") [] 0

/-- History with a question and an error only (no results). -/
def stateW5 : AgentState :=
  AgentState.mk [humanMsg "V", aiMsg "error" "E"] none none [] 0

/-- Empty conversation state. -/
def stateEmpty : AgentState := AgentState.mk [] none none [] 0

/-- History holding a single sql_query-tagged message. -/
def stateSql : AgentState := AgentState.mk [aiMsg "sql_query" "Q"] none none [] 0

/-- State with a cached, non-empty schema. -/
def stateCached : AgentState :=
  AgentState.mk [humanMsg "V"] (some "SCH") (some "t0") [] 0

/-- Missing-context disjunction of `fix_query_node` (spec §4.7): one of the
four required inputs, as looked up by the node itself, is absent (the schema
is absent when the state key is missing or the string is empty, matching
Python truthiness in `all([...])`). -/
def fixMissingContext (env : Env) (s : AgentState) : Prop :=
  find_last_message_by_name (env.prepareLlmContext s.messages) "sql_query" = none ∨
  find_last_message_by_name (env.prepareLlmContext s.messages) "error" = none ∨
  s.schema = none ∨ s.schema = some "" ∨
  find_last_human_message (env.prepareLlmContext s.messages) = none

/-! ## Helper lemmas -/

lemma find_last_name_append (xs : List Message) (a : Message) (n : String) :
    find_last_message_by_name (xs ++ [a]) n =
      if a.name = some n then some a else find_last_message_by_name xs n := by
  unfold find_last_message_by_name
  rw [List.reverse_append]
  simp only [List.reverse_cons, List.reverse_nil, List.nil_append, List.singleton_append]
  by_cases h : a.name = some n
  · rw [List.find?_cons_of_pos _ (by simp [h]), if_pos h]
  · rw [List.find?_cons_of_neg _ (by simp [h]), if_neg h]

lemma find_last_human_append (xs : List Message) (a : Message) :
    find_last_human_message (xs ++ [a]) =
      if a.role = Role.human then some a else find_last_human_message xs := by
  unfold find_last_human_message
  rw [List.reverse_append]
  simp only [List.reverse_cons, List.reverse_nil, List.nil_append, List.singleton_append]
  by_cases h : a.role = Role.human
  · rw [List.find?_cons_of_pos _ (by simp [h]), if_pos h]
  · rw [List.find?_cons_of_neg _ (by simp [h]), if_neg h]

lemma getLast?_append_single {α : Type} (xs : List α) (a : α) :
    (xs ++ [a]).getLast? = some a := by
  simp

lemma get_schema_fetch_of_fail (env : Env) (s : AgentState) (h : schemaLoadFails env) :
    ∃ e, get_schema_fetch env s = pushMsg s (aiMsg "error" e) := by
  unfold schemaLoadFails at h
  unfold get_schema_fetch
  cases henv : env.getSchemaDescription with
  | error e => exact ⟨_, rfl⟩
  | ok sch =>
    rw [henv] at h
    have h' : sch = "" ∨ strContains sch "Error" = true := h
    refine ⟨"Fatal error getting schema: Failed to retrieve schema: " ++ sch, ?_⟩
    have hred : (if sch = "" ∨ strContains sch "Error" = true then
        pushMsg s (aiMsg "error" ("Fatal error getting schema: Failed to retrieve schema: " ++ sch))
      else AgentState.mk (s.messages ++ [aiMsg "schema" "Schema loaded."]) (some sch)
        (some env.now) s.resolvedEntities s.fixAttempts) =
        pushMsg s (aiMsg "error" ("Fatal error getting schema: Failed to retrieve schema: " ++ sch)) :=
      if_pos h'
    exact hred

/-! ## Claim theorems -/

/-- C1 (counterexample): with the repair bound configured to 1, a turn in which
the syntax check always passes and execution always raises enters `fix_query`
at step 8 while `fix_attempts` already equals the bound (routing there through
`after_execution`), and at step 9 the counter is 2, strictly above the bound,
without the workflow ever having routed to `format_answer`. -/
theorem after_execution_enters_fix_at_bound :
    ((List.range 10).map (fun i => (run envC1 i (Stage.get_schema, initC1)).1) =
      [Stage.get_schema, Stage.clarify, Stage.generate_query, Stage.check_query,
       Stage.execute_query, Stage.fix_query, Stage.check_query, Stage.execute_query,
       Stage.fix_query, Stage.check_query]) ∧
    envC1.maxFixAttempts = 1 ∧
    (run envC1 8 (Stage.get_schema, initC1)).2.fixAttempts = 1 ∧
    (run envC1 9 (Stage.get_schema, initC1)).2.fixAttempts = 2 := by
  refine ⟨?_, rfl, ?_, ?_⟩ <;> rfl

/-- C1 (amended): only the post-syntax-check router enforces the repair bound:
`should_fix_or_execute` returns fix_query only when `fix_attempts` is strictly
below `MAX_FIX_ATTEMPTS` (the post-execution router checks no bound, so the
counter can pass the bound through execution failures). -/
theorem should_fix_or_execute_requires_below_bound (env : Env) (s : AgentState)
    (h : should_fix_or_execute env s = "fix_query") :
    s.fixAttempts < env.maxFixAttempts := by
  unfold should_fix_or_execute at h
  rcases hm : s.messages.getLast? with _ | m
  · rw [hm] at h
    have h' : ("format_answer" : String) = "fix_query" := h
    exact absurd h' (by decide)
  · rw [hm] at h
    have h' : (if m.name = some "error" ∧ s.fixAttempts < env.maxFixAttempts then
        ("fix_query" : String)
      else if m.name = some "check_result" then "execute_query"
      else "format_answer") = "fix_query" := h
    by_cases h1 : m.name = some "error" ∧ s.fixAttempts < env.maxFixAttempts
    · exact h1.2
    · rw [if_neg h1] at h'
      by_cases h2 : m.name = some "check_result"
      · rw [if_pos h2] at h'
        exact absurd h' (by decide)
      · rw [if_neg h2] at h'
        exact absurd h' (by decide)

/-- Witness for the amended C1 theorem at a concrete state. -/
theorem should_fix_or_execute_requires_below_bound_instance :
    stateErrLow.fixAttempts < envW.maxFixAttempts :=
  should_fix_or_execute_requires_below_bound envW stateErrLow (by decide)

/-- C2 (counterexample): the Clarify self-loop router inspects the whole
history, not only the last message: two histories ending in the same
clarify-tagged message route differently when an older clarified-tagged
message exists; moreover `should_fix_or_execute` also reads the repair
counter, so two states with identical histories can route differently. -/
theorem clarify_router_depends_on_full_history :
    stateClarA.messages.getLast? = some clarifyMsgW ∧
    stateClarB.messages.getLast? = some clarifyMsgW ∧
    clarify_router stateClarA = "generate_query" ∧
    clarify_router stateClarB = "clarify" ∧
    stateErrLow.messages = stateErrHigh.messages ∧
    should_fix_or_execute envC1 stateErrLow = "fix_query" ∧
    should_fix_or_execute envC1 stateErrHigh = "format_answer" := by
  refine ⟨rfl, rfl, ?_, ?_, rfl, ?_, ?_⟩ <;> decide

/-- C2 (amended): the two post-stage routers `should_fix_or_execute` and
`after_execution` depend only on the last message of the history together with
(for the former) the repair counter; the Clarify router is exempt because it
searches the entire history for a clarified tag. -/
theorem last_message_routers_agree (env : Env) (s t : AgentState) (m : Message)
    (hs : s.messages.getLast? = some m) (ht : t.messages.getLast? = some m)
    (hfix : s.fixAttempts = t.fixAttempts) :
    should_fix_or_execute env s = should_fix_or_execute env t ∧
    after_execution s = after_execution t := by
  unfold should_fix_or_execute after_execution
  rw [hs, ht, hfix]
  exact ⟨rfl, rfl⟩

/-- Witness for the amended C2 theorem on two different histories sharing the
same last message. -/
theorem last_message_routers_agree_instance :
    should_fix_or_execute envW stateClarA = should_fix_or_execute envW stateClarB ∧
    after_execution stateClarA = after_execution stateClarB :=
  last_message_routers_agree envW stateClarA stateClarB clarifyMsgW rfl rfl rfl

/-- C4 (counterexample): canonicalization is not idempotent: with the map
sending "Feyenoord" to "Feyenoord Rotterdam", a second application substitutes
again inside the canonical name and produces "Feyenoord Rotterdam Rotterdam". -/
theorem canonicalize_not_idempotent :
    canonicalize_query (canonicalize_query "Hoe heeft feyenoord gisteren gespeeld?"
        [("Feyenoord", "Feyenoord Rotterdam")]) [("Feyenoord", "Feyenoord Rotterdam")] ≠
      canonicalize_query "Hoe heeft feyenoord gisteren gespeeld?"
        [("Feyenoord", "Feyenoord Rotterdam")] ∧
    canonicalize_query (canonicalize_query "Hoe heeft feyenoord gisteren gespeeld?"
        [("Feyenoord", "Feyenoord Rotterdam")]) [("Feyenoord", "Feyenoord Rotterdam")] =
      "Hoe heeft Feyenoord Rotterdam Rotterdam gisteren gespeeld?" := by
  constructor <;> decide

/-- C6: the concrete canonicalization example: case-insensitive whole-word
replacement of "feyenoord" by the canonical "Feyenoord Rotterdam". -/
theorem canonicalize_feyenoord_example :
    canonicalize_query "Hoe heeft feyenoord gisteren gespeeld?"
      [("Feyenoord", "Feyenoord Rotterdam")] =
      "Hoe heeft Feyenoord Rotterdam gisteren gespeeld?" := by
  decide

/-- C5 (counterexample): on a history holding an older results-tagged message
and a newer error-tagged message, `format_answer_node` takes the results
branch (here: the empty-results phrasing), not the error-disclosure branch,
although the latest relevant signal is the error. -/
theorem format_answer_prefers_stale_results :
    find_last_message_by_name stateC5.messages "error" = some (aiMsg "error" "BOOM") ∧
    format_answer_node envW stateC5 =
      pushMsg stateC5 (aiPlain (answerPrompt "Vraag?" "Geen resultaten gevonden.")) ∧
    answerPrompt "Vraag?" "Geen resultaten gevonden." ≠
      errorPrompt "Vraag?" "BOOM" "SCH" := by
  refine ⟨?_, rfl, ?_⟩ <;> decide

/-- C5 (amended): `format_answer_node` builds the persona-styled
error-disclosure prompt exactly when no results-tagged message exists anywhere
in the history and an error-tagged one does; any results-tagged message, even
one older than the latest error, selects the results branch instead. -/
theorem format_answer_error_branch_no_results (env : Env) (s : AgentState)
    (f : String → String) (q e : Message)
    (hllm : env.llm = some f)
    (hq : find_last_human_message s.messages = some q)
    (hres : find_last_message_by_name s.messages "results" = none)
    (herr : find_last_message_by_name s.messages "error" = some e) :
    format_answer_node env s =
      pushMsg s (aiPlain (f (errorPrompt q.content e.content (renderOptSchema s.schema)))) := by
  unfold format_answer_node
  rw [hllm, hq, hres, herr]

/-- Witness for the amended C5 theorem at a concrete error-only history. -/
theorem format_answer_error_branch_no_results_instance :
    format_answer_node envW stateW5 =
      pushMsg stateW5 (aiPlain (errorPrompt "V" "E" "None")) :=
  format_answer_error_branch_no_results envW stateW5 id (humanMsg "V") (aiMsg "error" "E")
    rfl (by decide) (by decide) (by decide)

/-- C8: `execute_query_node` is total and never lets a failure escape: a
missing sql_query message yields the fixed error message, a raising executor
yields an error-tagged message carrying the exception text, and a successful
execution appends a results-tagged message with the JSON-serialized rows. -/
theorem execute_query_node_spec (env : Env) (s : AgentState) :
    (find_last_message_by_name s.messages "sql_query" = none →
      execute_query_node env s =
        pushMsg s (aiMsg "error" "No SQL query found in history to execute.")) ∧
    (∀ m rows, find_last_message_by_name s.messages "sql_query" = some m →
      env.executeQuery m.content = Except.ok rows →
      execute_query_node env s = pushMsg s (aiMsg "results" (jsonDumpsRows rows))) ∧
    (∀ m e, find_last_message_by_name s.messages "sql_query" = some m →
      env.executeQuery m.content = Except.error e →
      execute_query_node env s =
        pushMsg s (aiMsg "error" ("Error executing query: " ++ e))) := by
  refine ⟨?_, ?_, ?_⟩
  · intro h
    unfold execute_query_node
    rw [h]
  · intro m rows h1 h2
    unfold execute_query_node
    rw [h1]
    show (match env.executeQuery m.content with
      | Except.ok results => pushMsg s (aiMsg "results" (jsonDumpsRows results))
      | Except.error e => pushMsg s (aiMsg "error" ("Error executing query: " ++ e))) =
      pushMsg s (aiMsg "results" (jsonDumpsRows rows))
    rw [h2]
  · intro m e h1 h2
    unfold execute_query_node
    rw [h1]
    show (match env.executeQuery m.content with
      | Except.ok results => pushMsg s (aiMsg "results" (jsonDumpsRows results))
      | Except.error e2 => pushMsg s (aiMsg "error" ("Error executing query: " ++ e2))) =
      pushMsg s (aiMsg "error" ("Error executing query: " ++ e))
    rw [h2]

/-- Witness for C8 covering all three exit paths at concrete inputs. -/
theorem execute_query_node_spec_instance :
    execute_query_node envW stateSql = pushMsg stateSql (aiMsg "results" (jsonDumpsRows [7])) ∧
    execute_query_node envW2 stateSql =
      pushMsg stateSql (aiMsg "error" ("Error executing query: " ++ "executor down")) ∧
    execute_query_node envW stateEmpty =
      pushMsg stateEmpty (aiMsg "error" "No SQL query found in history to execute.") := by
  refine ⟨?_, ?_, ?_⟩
  · exact (execute_query_node_spec envW stateSql).2.1 (aiMsg "sql_query" "Q") [7] (by decide) rfl
  · exact (execute_query_node_spec envW2 stateSql).2.2 (aiMsg "sql_query" "Q") "executor down"
      (by decide) rfl
  · exact (execute_query_node_spec envW stateEmpty).1 rfl

/-- C9: on a cache hit (non-empty cached schema), `get_schema_node` performs no
schema-provider call (its result is independent of the environment) and
returns the `schema` and `schema_timestamp` fields unchanged. -/
theorem get_schema_node_cache_hit (env env2 : Env) (s : AgentState) (sch : String)
    (h : s.schema = some sch) (hne : sch ≠ "") :
    get_schema_node env s = pushMsg s (aiMsg "schema" "Schema loaded.") ∧
    (get_schema_node env s).schema = s.schema ∧
    (get_schema_node env s).schemaTimestamp = s.schemaTimestamp ∧
    get_schema_node env s = get_schema_node env2 s := by
  have hunf : ∀ e : Env, get_schema_node e s = pushMsg s (aiMsg "schema" "Schema loaded.") := by
    intro e
    unfold get_schema_node
    rw [h]
    exact if_neg hne
  refine ⟨hunf env, ?_, ?_, ?_⟩
  · rw [hunf env]
    rfl
  · rw [hunf env]
    rfl
  · rw [hunf env, hunf env2]

/-- Witness for C9 at a concrete cached-schema state and two environments with
different providers. -/
theorem get_schema_node_cache_hit_instance :
    get_schema_node envW stateCached = pushMsg stateCached (aiMsg "schema" "Schema loaded.") ∧
    (get_schema_node envW stateCached).schema = stateCached.schema ∧
    (get_schema_node envW stateCached).schemaTimestamp = stateCached.schemaTimestamp ∧
    get_schema_node envW stateCached = get_schema_node envW2 stateCached :=
  get_schema_node_cache_hit envW envW2 stateCached "SCH" rfl (by decide)

/-- C10: both post-stage routers are total functions of the state and default
to format_answer: on an empty history, and whenever the last message carries no
recognized tag (no error, check_result or results tag), both return
format_answer; being Lean functions of the embedded state they cannot raise. -/
theorem routers_total_default_format_answer (env : Env) (s : AgentState)
    (h : s.messages.getLast? = none ∨
      ∃ m, s.messages.getLast? = some m ∧ m.name ≠ some "error" ∧
        m.name ≠ some "check_result" ∧ m.name ≠ some "results") :
    should_fix_or_execute env s = "format_answer" ∧ after_execution s = "format_answer" := by
  unfold should_fix_or_execute after_execution
  rcases h with h | ⟨m, hm, h1, h2, h3⟩
  · rw [h]
    exact ⟨rfl, rfl⟩
  · rw [hm]
    constructor
    · show (if m.name = some "error" ∧ s.fixAttempts < env.maxFixAttempts then
          ("fix_query" : String)
        else if m.name = some "check_result" then "execute_query"
        else "format_answer") = "format_answer"
      rw [if_neg (fun hc => h1 hc.1), if_neg h2]
    · show (if m.name = some "error" then ("fix_query" : String)
        else if m.name = some "results" then "format_answer"
        else "format_answer") = "format_answer"
      rw [if_neg h1, if_neg h3]

/-- Witness for C10 at a concrete history whose last message carries an
unrecognized tag. -/
theorem routers_total_default_format_answer_instance :
    should_fix_or_execute envW stateClarB = "format_answer" ∧
    after_execution stateClarB = "format_answer" :=
  routers_total_default_format_answer envW stateClarB
    (Or.inr ⟨clarifyMsgW, rfl, by decide, by decide, by decide⟩)

lemma fix_query_node_missing (env : Env) (s : AgentState) (h : fixMissingContext env s) :
    fix_query_node env s = fixMissingUpdate s := by
  unfold fixMissingContext at h
  unfold fix_query_node
  cases h1 : s.schema with
  | none => rfl
  | some sch =>
    cases h2 : find_last_message_by_name (env.prepareLlmContext s.messages) "sql_query" with
    | none => rfl
    | some sqlm =>
      cases h3 : find_last_message_by_name (env.prepareLlmContext s.messages) "error" with
      | none => rfl
      | some em =>
        cases h4 : find_last_human_message (env.prepareLlmContext s.messages) with
        | none => rfl
        | some nm =>
          have hsch : sch = "" := by
            rcases h with h | h | h | h | h
            · rw [h2] at h
              exact Option.noConfusion h
            · rw [h3] at h
              exact Option.noConfusion h
            · rw [h1] at h
              exact Option.noConfusion h
            · rw [h1] at h
              exact Option.some.inj h
            · rw [h4] at h
              exact Option.noConfusion h
          exact if_pos hsch

/-- C7: the Repair stage requires all four inputs: when any of the latest
sql_query message, latest error message, cached schema or latest user
utterance is absent, `fix_query_node` appends the missing-context error
message and its result does not depend on the SQL-repair collaborator; and on
every exit path (success, collaborator failure, missing context) the
`fix_attempts` counter is incremented by exactly one. -/
theorem fix_query_node_spec (env env2 : Env) (s : AgentState)
    (hprep : env2.prepareLlmContext = env.prepareLlmContext) :
    (fixMissingContext env s →
      fix_query_node env s = fixMissingUpdate s ∧
      fix_query_node env s = fix_query_node env2 s) ∧
    (fix_query_node env s).fixAttempts = s.fixAttempts + 1 := by
  constructor
  · intro hmiss
    have hmiss2 : fixMissingContext env2 s := by
      unfold fixMissingContext at hmiss ⊢
      rw [hprep]
      exact hmiss
    rw [fix_query_node_missing env s hmiss, fix_query_node_missing env2 s hmiss2]
    exact ⟨rfl, rfl⟩
  · unfold fix_query_node
    split
    · split
      · rfl
      · split <;> rfl
    · rfl

/-- Witness for C7 at the empty state (schema and all tagged messages absent). -/
theorem fix_query_node_spec_instance :
    (fix_query_node envW stateEmpty = fixMissingUpdate stateEmpty ∧
     fix_query_node envW stateEmpty = fix_query_node envW2 stateEmpty) ∧
    (fix_query_node envW stateEmpty).fixAttempts = stateEmpty.fixAttempts + 1 := by
  have h := fix_query_node_spec envW envW2 stateEmpty rfl
  exact ⟨h.1 (Or.inr (Or.inr (Or.inl rfl))), h.2⟩

/-- C3 (counterexample): with a raising schema provider and repair bound 1, the
turn does terminate at FormatAnswer, but GenerateQuery is executed at step 2
of the very same turn (the graph unconditionally proceeds to Clarify and then
to GenerateQuery), contradicting that GenerateQuery is never reached. -/
theorem schema_failure_still_runs_generate_query :
    (List.range 8).map (fun i => (run envC3 i (Stage.get_schema, initC3)).1) =
      [Stage.get_schema, Stage.clarify, Stage.generate_query, Stage.check_query,
       Stage.fix_query, Stage.check_query, Stage.format_answer, Stage.done] := by
  rfl

lemma clarify_router_clarified (xs : List Message) (a b : Option String)
    (c : List (String × String)) (d : Nat) :
    clarify_router (AgentState.mk (xs ++ [aiMsg "clarified" "OK"]) a b c d) =
      "generate_query" := by
  unfold clarify_router
  dsimp only
  rw [find_last_name_append]
  rw [if_pos (show (aiMsg "clarified" "OK").name = some "clarified" from rfl)]
  rfl

lemma clarify_node_resolved (env : Env) (t : AgentState) (q : Message)
    (hq : find_last_human_message t.messages = some q)
    (hamb : env.findAmbiguousEntities q.content = []) :
    clarify_node env t =
      AgentState.mk (t.messages ++ [aiMsg "clarified" "OK"]) t.schema t.schemaTimestamp
        (dictUpdate t.resolvedEntities (env.resolveEntities q.content)) t.fixAttempts := by
  unfold clarify_node
  rw [hq]
  show (if (env.findAmbiguousEntities q.content).isEmpty then _ else _) = _
  rw [hamb]
  rfl

lemma generate_query_node_no_schema (env : Env) (t : AgentState) (h : t.schema = none) :
    generate_query_node env t =
      pushMsg t (aiMsg "error" "Schema not available for query generation.") := by
  unfold generate_query_node
  rw [h]

/-- C3 (amended): a schema-load failure does not prevent GenerateQuery from
running: for every state without a cached schema, a failing provider and a
latest user utterance with no ambiguous entities, the workflow is at
GenerateQuery after two steps, and after three steps it is at CheckSyntax with
a schema-unavailable error-tagged message as the newest message (from which
the turn proceeds to FormatAnswer through the error path, as the
counterexample run shows concretely). -/
theorem schema_failure_generate_query_path (env : Env) (s : AgentState) (q : Message)
    (hschema : s.schema = none)
    (hfail : schemaLoadFails env)
    (hq : find_last_human_message s.messages = some q)
    (hamb : env.findAmbiguousEntities q.content = []) :
    (run env 2 (Stage.get_schema, s)).1 = Stage.generate_query ∧
    (run env 3 (Stage.get_schema, s)).1 = Stage.check_query ∧
    (run env 3 (Stage.get_schema, s)).2.messages.getLast? =
      some (aiMsg "error" "Schema not available for query generation.") := by
  obtain ⟨e, hfetch⟩ := get_schema_fetch_of_fail env s hfail
  have hnode1 : get_schema_node env s = pushMsg s (aiMsg "error" e) := by
    unfold get_schema_node
    rw [hschema]
    exact hfetch
  have h1 : step env (Stage.get_schema, s) = (Stage.clarify, pushMsg s (aiMsg "error" e)) := by
    show (Stage.clarify, get_schema_node env s) = (Stage.clarify, pushMsg s (aiMsg "error" e))
    rw [hnode1]
  have hq1 : find_last_human_message (pushMsg s (aiMsg "error" e)).messages = some q := by
    show find_last_human_message (s.messages ++ [aiMsg "error" e]) = some q
    rw [find_last_human_append]
    rw [if_neg (show ¬(aiMsg "error" e).role = Role.human from by intro hc; cases hc)]
    exact hq
  have hclar := clarify_node_resolved env (pushMsg s (aiMsg "error" e)) q hq1 hamb
  have h2 : ∃ t, step env (Stage.clarify, pushMsg s (aiMsg "error" e)) =
      (Stage.generate_query, t) ∧ t.schema = none := by
    refine ⟨clarify_node env (pushMsg s (aiMsg "error" e)), ?_, ?_⟩
    · show (stageTargetFromClarify (clarify_router (clarify_node env (pushMsg s (aiMsg "error" e)))),
        clarify_node env (pushMsg s (aiMsg "error" e))) = _
      rw [hclar, clarify_router_clarified]
      rfl
    · rw [hclar]
      exact hschema
  obtain ⟨s2, h2, hsch2⟩ := h2
  have hgen := generate_query_node_no_schema env s2 hsch2
  have h3 : step env (Stage.generate_query, s2) =
      (Stage.check_query, pushMsg s2 (aiMsg "error" "Schema not available for query generation.")) := by
    show (Stage.check_query, generate_query_node env s2) = _
    rw [hgen]
  have hrun2 : run env 2 (Stage.get_schema, s) = (Stage.generate_query, s2) := by
    show run env 1 (step env (Stage.get_schema, s)) = _
    rw [h1]
    show run env 0 (step env (Stage.clarify, pushMsg s (aiMsg "error" e))) = _
    rw [h2]
    rfl
  have hrun3 : run env 3 (Stage.get_schema, s) =
      (Stage.check_query, pushMsg s2 (aiMsg "error" "Schema not available for query generation.")) := by
    show run env 2 (step env (Stage.get_schema, s)) = _
    rw [h1]
    show run env 1 (step env (Stage.clarify, pushMsg s (aiMsg "error" e))) = _
    rw [h2]
    show run env 0 (step env (Stage.generate_query, s2)) = _
    rw [h3]
    rfl
  refine ⟨?_, ?_, ?_⟩
  · rw [hrun2]
  · rw [hrun3]
  · rw [hrun3]
    show (pushMsg s2 (aiMsg "error" "Schema not available for query generation.")).messages.getLast? = _
    show (s2.messages ++ [aiMsg "error" "Schema not available for query generation."]).getLast? = _
    exact getLast?_append_single _ _

/-- Witness for the amended C3 theorem at the concrete failing-provider run. -/
theorem schema_failure_generate_query_path_instance :
    (run envC3 2 (Stage.get_schema, initC3)).1 = Stage.generate_query ∧
    (run envC3 3 (Stage.get_schema, initC3)).1 = Stage.check_query ∧
    (run envC3 3 (Stage.get_schema, initC3)).2.messages.getLast? =
      some (aiMsg "error" "Schema not available for query generation.") :=
  schema_failure_generate_query_path envC3 initC3 (humanMsg "vraag") rfl True.intro rfl rfl

lemma pySplit_cons_ws {c : Char} (hc : c.isWhitespace = true) (rest : List Char) :
    pySplit (c :: rest) = pySplit rest := by
  simp [pySplit, hc]

lemma pySplit_cons_cons_ws {c d : Char} (hc : c.isWhitespace = false)
    (hd : d.isWhitespace = true) (rest : List Char) :
    pySplit (c :: d :: rest) = [c] :: pySplit (d :: rest) := by
  simp [pySplit, hc, hd]

lemma pySplit_cons_cons_nonws {c d : Char} (hc : c.isWhitespace = false)
    (hd : d.isWhitespace = false) (rest : List Char) :
    pySplit (c :: d :: rest) =
      (match pySplit (d :: rest) with
        | [] => [[c]]
        | t :: ts => (c :: t) :: ts) := by
  simp [pySplit, hc, hd]

lemma pySplit_token (t : List Char) (h1 : t ≠ [])
    (h2 : ∀ c ∈ t, c.isWhitespace = false) :
    pySplit t = [t] ∧ ∀ rest, pySplit (t ++ ' ' :: rest) = t :: pySplit rest := by
  induction t with
  | nil => exact absurd rfl h1
  | cons c t' ih =>
    have hc : c.isWhitespace = false := h2 c (List.mem_cons_self c t')
    cases t' with
    | nil =>
      constructor
      · simp [pySplit, hc]
      · intro rest
        show pySplit (c :: ' ' :: rest) = [c] :: pySplit rest
        rw [pySplit_cons_cons_ws hc (by decide), pySplit_cons_ws (by decide)]
    | cons d t'' =>
      have hd : d.isWhitespace = false := h2 d (by simp)
      have ih' := ih (by simp) (fun x hx => h2 x (List.mem_cons_of_mem c hx))
      constructor
      · rw [pySplit_cons_cons_nonws hc hd, ih'.1]
      · intro rest
        have he : (c :: d :: t'') ++ ' ' :: rest = c :: d :: (t'' ++ ' ' :: rest) := by
          simp
        rw [he, pySplit_cons_cons_nonws hc hd]
        have he2 : (d :: t'') ++ ' ' :: rest = d :: (t'' ++ ' ' :: rest) := by
          simp
        rw [← he2, ih'.2 rest]

lemma pySplit_good (l : List Char) :
    ∀ t ∈ pySplit l, t ≠ [] ∧ ∀ c ∈ t, c.isWhitespace = false := by
  induction l with
  | nil =>
    intro t ht
    exact absurd ht (by simp [pySplit])
  | cons c rest ih =>
    intro t ht
    cases hc : c.isWhitespace with
    | true =>
      rw [pySplit_cons_ws hc] at ht
      exact ih t ht
    | false =>
      cases rest with
      | nil =>
        simp [pySplit, hc] at ht
        subst ht
        refine ⟨by simp, ?_⟩
        intro x hx
        rw [List.mem_singleton] at hx
        subst hx
        exact hc
      | cons d r2 =>
        cases hd : d.isWhitespace with
        | true =>
          rw [pySplit_cons_cons_ws hc hd] at ht
          rcases List.mem_cons.mp ht with h | h
          · subst h
            refine ⟨by simp, ?_⟩
            intro x hx
            rw [List.mem_singleton] at hx
            subst hx
            exact hc
          · exact ih _ h
        | false =>
          rw [pySplit_cons_cons_nonws hc hd] at ht
          cases hps : pySplit (d :: r2) with
          | nil =>
            rw [hps] at ht
            rcases List.mem_singleton.mp ht with h
            subst h
            refine ⟨by simp, ?_⟩
            intro x hx
            rw [List.mem_singleton] at hx
            subst hx
            exact hc
          | cons t0 ts =>
            rw [hps] at ht
            rcases List.mem_cons.mp ht with h | h
            · subst h
              have h0 := ih t0 (by rw [hps]; exact List.mem_cons_self t0 ts)
              refine ⟨by simp, ?_⟩
              intro x hx
              rcases List.mem_cons.mp hx with hx | hx
              · subst hx
                exact hc
              · exact h0.2 x hx
            · exact ih t (by rw [hps]; exact List.mem_cons_of_mem t0 h)

lemma pySplit_joinSp (ts : List (List Char))
    (h : ∀ t ∈ ts, t ≠ [] ∧ ∀ c ∈ t, c.isWhitespace = false) :
    pySplit (joinSp ts) = ts := by
  induction ts with
  | nil => rfl
  | cons t ts ih =>
    cases ts with
    | nil =>
      show pySplit (joinSp [t]) = [t]
      have ht := h t (List.mem_cons_self t [])
      exact (pySplit_token t ht.1 ht.2).1
    | cons t2 ts2 =>
      show pySplit (t ++ ' ' :: joinSp (t2 :: ts2)) = t :: t2 :: ts2
      have ht := h t (List.mem_cons_self t (t2 :: ts2))
      rw [(pySplit_token t ht.1 ht.2).2 (joinSp (t2 :: ts2))]
      rw [ih (fun x hx => h x (List.mem_cons_of_mem t hx))]

/-- C4 (amended): canonicalization is not idempotent in general (a canonical
name may itself contain a mention as a whole word and be substituted again, as
the counterexample shows); the idempotency that does hold without side
conditions is for the empty resolved-entity map, where canonicalization is
exactly whitespace normalization. -/
theorem canonicalize_idempotent_empty_map (q : String) :
    canonicalize_query (canonicalize_query q []) [] = canonicalize_query q [] := by
  show normWs (normWs q) = normWs q
  show String.mk (joinSp (pySplit (joinSp (pySplit q.data)))) = String.mk (joinSp (pySplit q.data))
  rw [pySplit_joinSp (pySplit q.data) (pySplit_good q.data)]

end Feyod
